import Mathlib

/-!
# MoneyFlow ledger core — shallow embedding

A shallow embedding of the ledger-relevant code of the MoneyFlow repository
(a Supabase-backed personal finance tracker) together with proofs about the
spec's claims on it.

Embedded source functions:

* `src/lib/supabase.ts`: `getAccountBalance`, `updateAccountBalance`,
  `createTransaction`, `deleteTransaction`.
* `src/components/transactions/Transactions.tsx`: `Transactions.handleDelete`,
  `TransactionForm.handleSubmit` (create and update branches),
  `CategoryForm.handleDelete`.
* `Settings.tsx`: `exportData`, `importData`.

Modelling conventions:

* The database is a `Store`: three lists of rows (accounts, categories,
  transactions), mirroring the three tables created in `supabase.ts`.
* `DECIMAL(12,2)` amounts are modelled as `Int` (fixed-point minor units).
* A `BEGIN … COMMIT / ROLLBACK` block is modelled as an all-or-nothing
  function `Store → Except LedgerErr Store`: on `.error` the caller's state
  is unchanged (rollback), on `.ok` the whole block's writes are applied.
* Supabase row timestamps (`updated_at`) written by the code are threaded
  through as an explicit `now : String` parameter; database-generated ids
  are supplied by the caller, as the embedding cannot draw fresh UUIDs.
-/

namespace MoneyFlow

/-- Transaction/category kind, the `type` column: `income` or `expense`. -/
inductive TxType where
  | income
  | expense
deriving DecidableEq

/-- Account kind, the `type` column of `accounts`: regular, debt or savings. -/
inductive AccountType where
  | regular
  | debt
  | savings
deriving DecidableEq

/-- A row of the `accounts` table (`supabase.ts`, `CREATE TABLE accounts`).
`created_at` is carried but never written by the embedded code. -/
structure Account where
  id : String
  user_id : String
  name : String
  type : AccountType
  balance : Int
  goal : Option Int := none
  description : Option String := none
  created_at : String := ""
  updated_at : String := ""
deriving DecidableEq

/-- A row of the `categories` table (`supabase.ts`, `CREATE TABLE categories`). -/
structure Category where
  id : String
  user_id : String
  name : String
  type : TxType
  created_at : String := ""
deriving DecidableEq

/-- A row of the `transactions` table (`supabase.ts`, `CREATE TABLE
transactions`). `category_id` and `account_id` are nullable columns. -/
structure Tx where
  id : String
  user_id : String
  type : TxType
  amount : Int
  category_id : Option String := none
  account_id : Option String := none
  description : String := ""
  date : String := ""
  created_at : String := ""
deriving DecidableEq

/-- The durable state: the three tables, each a list of rows. -/
structure Store where
  accounts : List Account
  categories : List Category
  transactions : List Tx
deriving DecidableEq

/-- Errors surfaced by the embedded operations.  `storeError` stands for any
thrown supabase error (the code rethrows them without classification);
`malformedSnapshot` is the `Error('Invalid import file structure')` thrown by
`Settings.importData` — the spec's `MalformedSnapshotError`. -/
inductive LedgerErr where
  | storeError
  | malformedSnapshot
deriving DecidableEq

/-- The spec's Balance Accumulator: the signed balance delta a transaction
contributes — `+amount` for income, `-amount` for expense.  This is the
expression `transaction.type === 'income' ? amount : -amount` used in
`createTransaction`. -/
def effect : TxType → Int → Int
  | .income, amount => amount
  | .expense, amount => -amount

/-- `getAccountBalance` (`supabase.ts` lines 186–195): select the single
`accounts` row with the given id and return its balance.  `.single()` errors
when no such row exists, so a missing account is an error. -/
def getAccountBalance (accountId : String) (s : Store) : Except LedgerErr Int :=
  match s.accounts.find? (fun a => a.id == accountId) with
  | some a => .ok a.balance
  | none => .error .storeError

/-- `updateAccountBalance` (`supabase.ts` lines 197–207): set `balance` and
`updated_at` on every `accounts` row whose id matches. -/
def updateAccountBalance (accountId : String) (newBalance : Int) (now : String)
    (s : Store) : Store :=
  { s with
    accounts := s.accounts.map (fun a =>
      if a.id == accountId then { a with balance := newBalance, updated_at := now }
      else a) }

/-- `createTransaction` (`supabase.ts` lines 209–252): inside one
`BEGIN`/`COMMIT` block, insert the transaction row; then, if `updateBalance`
and the row has an `account_id`, read that account's current balance and
write `current + balanceChange` where `balanceChange` is `+amount` for income
and `-amount` for expense.  Any error rolls the whole block back. -/
def createTransaction (tx : Tx) (updateBalance : Bool) (now : String)
    (s : Store) : Except LedgerErr Store :=
  let s1 : Store := { s with transactions := s.transactions ++ [tx] }
  match updateBalance, tx.account_id with
  | true, some aid =>
    match getAccountBalance aid s1 with
    | .ok currentBalance =>
      let balanceChange : Int :=
        match tx.type with
        | .income => tx.amount
        | .expense => -tx.amount
      .ok (updateAccountBalance aid (currentBalance + balanceChange) now s1)
    | .error e => .error e
  | _, _ => .ok s1

/-- `deleteTransaction` (`supabase.ts` lines 254–298): inside one
`BEGIN`/`COMMIT` block, delete every transaction row with the given id (a
non-matching id deletes zero rows and is not an error); then, if `accountId`
is non-null, read that account's balance and write `current + balanceChange`
where `balanceChange` is `-amount` for income and `+amount` for expense. -/
def deleteTransaction (transactionId : String) (accountId : Option String)
    (amount : Int) (type : TxType) (now : String) (s : Store) :
    Except LedgerErr Store :=
  let s1 : Store :=
    { s with transactions := s.transactions.filter (fun t => !(t.id == transactionId)) }
  match accountId with
  | some aid =>
    match getAccountBalance aid s1 with
    | .ok currentBalance =>
      let balanceChange : Int :=
        match type with
        | .income => -amount
        | .expense => amount
      .ok (updateAccountBalance aid (currentBalance + balanceChange) now s1)
    | .error e => .error e
  | none => .ok s1

/-- The fields posted by `TransactionForm.handleSubmit`
(`Transactions.tsx` lines 409–416): note that `account_id` is absent. -/
structure TxFormData where
  user_id : String
  amount : Int
  type : TxType
  description : String
  date : String
  category_id : String

/-- The insert branch of `TransactionForm.handleSubmit` (no `transaction`
prop): insert a new row carrying exactly the posted fields; `account_id` is
not posted, so the new row's `account_id` is the column default, null.  No
account balance is read or written. -/
def handleSubmitInsert (newId : String) (d : TxFormData) (s : Store) : Store :=
  { s with
    transactions := s.transactions ++
      [{ id := newId, user_id := d.user_id, type := d.type, amount := d.amount,
         category_id := some d.category_id, account_id := none,
         description := d.description, date := d.date }] }

/-- The update branch of `TransactionForm.handleSubmit`: update every row
whose id matches, overwriting exactly the posted fields (`user_id`, `amount`,
`type`, `description`, `date`, `category_id`); `account_id` is not in the
payload and keeps its stored value.  No account balance is read or written. -/
def handleSubmitUpdate (txId : String) (d : TxFormData) (s : Store) : Store :=
  { s with
    transactions := s.transactions.map (fun t =>
      if t.id == txId then
        { t with user_id := d.user_id, amount := d.amount, type := d.type,
                 description := d.description, date := d.date,
                 category_id := some d.category_id }
      else t) }

/-- `Transactions.handleDelete` (`Transactions.tsx` lines 67–82): delete every
transaction row matching both the id and the caller's user id.  A
non-matching id deletes zero rows without error; no balance is touched. -/
def handleDelete (id : String) (userId : String) (s : Store) : Store :=
  { s with
    transactions := s.transactions.filter (fun t => !(t.id == id && t.user_id == userId)) }

/-- `CategoryForm.handleDelete` (`Transactions.tsx` lines 618–661): first
delete all the caller's transaction rows referencing the category, then
delete the category row itself.  Two sequential calls; no account balance is
read or written. -/
def categoryHandleDelete (categoryId : String) (userId : String) (s : Store) : Store :=
  let s1 : Store :=
    { s with
      transactions := s.transactions.filter (fun t =>
        !(t.category_id == some categoryId && t.user_id == userId)) }
  { s1 with
    categories := s1.categories.filter (fun c =>
      !(c.id == categoryId && c.user_id == userId)) }

/-- The JSON object literal built by `Settings.exportData`: the three
collections selected by `user_id` plus `exportDate`. -/
structure Snapshot where
  transactions : List Tx
  categories : List Category
  accounts : List Account
  exportDate : String
deriving DecidableEq

/-- The keys of the object literal `{ transactions, categories, accounts,
exportDate }` serialized by `Settings.exportData`, in source order. -/
def Snapshot.keys : List String :=
  ["transactions", "categories", "accounts", "exportDate"]

/-- `Settings.exportData`: read all of the owner's transactions, categories
and accounts (each `select('*').eq('user_id', user.id)`) and package them
with the current timestamp as `exportDate`. -/
def exportData (userId : String) (now : String) (s : Store) : Snapshot :=
  { transactions := s.transactions.filter (fun t => t.user_id == userId)
    categories := s.categories.filter (fun c => c.user_id == userId)
    accounts := s.accounts.filter (fun a => a.user_id == userId)
    exportDate := now }

/-- A JSON value as `JSON.parse` can bind a snapshot field to: null, a
boolean, a number, a string, or an array of entity records. -/
inductive JVal (α : Type) where
  | null
  | bool (b : Bool)
  | num (n : Int)
  | str (s : String)
  | arr (l : List α)
deriving DecidableEq

/-- JavaScript truthiness of an optional field value: `undefined` (absent
key), `null`, `false`, `0` and `""` are falsy; everything else, an empty
array included, is truthy. -/
def JVal.truthy {α : Type} : Option (JVal α) → Bool
  | none => false
  | some .null => false
  | some (.bool b) => b
  | some (.num n) => n != 0
  | some (.str s) => s != ""
  | some (.arr _) => true

/-- Extract the array held by a field; `none` when the field is absent or not
an array (in which case the JS `.map` call on it would throw). -/
def JVal.asArr {α : Type} : Option (JVal α) → Option (List α)
  | some (.arr l) => some l
  | _ => none

/-- The parsed import file as `Settings.importData` sees it: each of the
three collection keys may be absent or bound to an arbitrary JSON value. -/
structure RawSnapshot where
  transactions : Option (JVal Tx)
  categories : Option (JVal Category)
  accounts : Option (JVal Account)

/-- The shape check of `Settings.importData` (line 101):
`!importData.transactions || !importData.categories || !importData.accounts`
throws; so the snapshot is accepted exactly when all three fields are truthy. -/
def validSnapshot (raw : RawSnapshot) : Bool :=
  JVal.truthy raw.transactions && JVal.truthy raw.categories && JVal.truthy raw.accounts

/-- `{ ...row, user_id: user.id }` on an account record. -/
def Account.restamp (userId : String) (a : Account) : Account :=
  { a with user_id := userId }

/-- `{ ...row, user_id: user.id }` on a category record. -/
def Category.restamp (userId : String) (c : Category) : Category :=
  { c with user_id := userId }

/-- `{ ...row, user_id: user.id }` on a transaction record. -/
def Tx.restamp (userId : String) (t : Tx) : Tx :=
  { t with user_id := userId }

/-- `Settings.importData`: validate the snapshot shape *before* the
`BEGIN` block — a failed check throws with no store access at all.  Then,
inside one all-or-nothing block: delete all of the owner's rows in the three
tables, and insert the snapshot's rows re-stamped with the owner's id.  A
truthy collection that is not an array makes the `.map` call inside the block
throw, rolling the block back (modelled as `.error .storeError`). -/
def importData (userId : String) (raw : RawSnapshot) (s : Store) :
    Except LedgerErr Store :=
  if !(validSnapshot raw) then
    .error .malformedSnapshot
  else
    match JVal.asArr raw.categories, JVal.asArr raw.accounts,
          JVal.asArr raw.transactions with
    | some cats, some accs, some txs =>
      .ok { accounts := s.accounts.filter (fun a => !(a.user_id == userId)) ++
                        accs.map (Account.restamp userId)
            categories := s.categories.filter (fun c => !(c.user_id == userId)) ++
                          cats.map (Category.restamp userId)
            transactions := s.transactions.filter (fun t => !(t.user_id == userId)) ++
                            txs.map (Tx.restamp userId) }
    | _, _, _ => .error .storeError

/-- Re-parse an export document as import input: each collection comes back
as a JSON array under its key (this is `JSON.parse` of `JSON.stringify` of
the export object). -/
def Snapshot.toRaw (snap : Snapshot) : RawSnapshot :=
  { transactions := some (.arr snap.transactions)
    categories := some (.arr snap.categories)
    accounts := some (.arr snap.accounts) }

/-- The signed sum of `effect` over the transactions referencing an account:
`Σ effect(tx.type, tx.amount)` over rows with `account_id = accountId`. -/
def txEffectSum (accountId : String) (txs : List Tx) : Int :=
  ((txs.filter (fun t => t.account_id == some accountId)).map
    (fun t => effect t.type t.amount)).sum

/-- The spec's central invariant: every stored account balance equals that
account's initial balance (given by `init`, keyed by account id) plus the
signed sum of all currently-existing transactions referencing it. -/
def balanceInvariant (init : String → Int) (s : Store) : Prop :=
  ∀ a ∈ s.accounts, a.balance = init a.id + txEffectSum a.id s.transactions

instance (init : String → Int) (s : Store) : Decidable (balanceInvariant init s) :=
  List.decidableBAll _ s.accounts

/-- Run an all-or-nothing block against a state: on rollback (`.error`) the
state is unchanged. -/
def runOr (fallback : Store) : Except LedgerErr Store → Store
  | .ok s => s
  | .error _ => fallback

/-! ### Concrete scenario inputs -/

/-- C1 scenario: account `a1` owned by `u1`, balance 1000. -/
def c1Acc : Account :=
  { id := "a1", user_id := "u1", name := "Cash", type := .regular, balance := 1000 }

/-- C1 scenario: an expense of 200 on account `a1`. -/
def c1Tx : Tx :=
  { id := "t1", user_id := "u1", type := .expense, amount := 200,
    category_id := some "c1", account_id := some "a1" }

/-- C1 scenario: initial store — the account alone, no transactions yet. -/
def c1Store : Store := { accounts := [c1Acc], categories := [], transactions := [] }

/-- C1 scenario: the initial-balance assignment (account `a1` opened at 1000). -/
def c1Init : String → Int := fun _ => 1000

/-- C1 scenario: state after `createTransaction` of the expense (balance 800). -/
def c1Mid : Store := runOr c1Store (createTransaction c1Tx true "ts1" c1Store)

/-- C1 scenario: state after `Transactions.handleDelete` of that transaction. -/
def c1Final : Store := handleDelete "t1" "u1" c1Mid

/-- C2 scenario 1: account "Cash" with balance 1000. -/
def c2Acc : Account :=
  { id := "a1", user_id := "u1", name := "Cash", type := .regular, balance := 1000 }

/-- C2 scenario 1: an expense transaction of amount 200 on that account. -/
def c2Tx : Tx :=
  { id := "t1", user_id := "u1", type := .expense, amount := 200,
    category_id := some "c1", account_id := some "a1" }

/-- C2 scenario 1: the store holding only the "Cash" account. -/
def c2Store : Store := { accounts := [c2Acc], categories := [], transactions := [] }

/-- C3 scenario 2: the same account at balance 800. -/
def c3Acc : Account :=
  { id := "a1", user_id := "u1", name := "Cash", type := .regular, balance := 800 }

/-- C3 scenario 2: the existing expense transaction of amount 200. -/
def c3Tx : Tx :=
  { id := "t1", user_id := "u1", type := .expense, amount := 200,
    category_id := some "c1", account_id := some "a1" }

/-- C3 scenario 2: the store before the update. -/
def c3Store : Store := { accounts := [c3Acc], categories := [], transactions := [c3Tx] }

/-- C3 scenario 2: the form payload changing the amount from 200 to 50
(same kind, and `account_id` is not part of the payload at all). -/
def c3Form : TxFormData :=
  { user_id := "u1", amount := 50, type := .expense, description := "",
    date := "2024-01-02", category_id := "c1" }

/-- C4 witness scenario: account at balance 1000. -/
def c4Acc : Account :=
  { id := "a1", user_id := "u1", name := "Cash", type := .regular, balance := 1000 }

/-- C4 witness scenario: an expense of 200 on that account, to be deleted. -/
def c4Tx : Tx :=
  { id := "t1", user_id := "u1", type := .expense, amount := 200,
    category_id := some "c1", account_id := some "a1" }

/-- C4 witness scenario: the store before the delete. -/
def c4Store : Store := { accounts := [c4Acc], categories := [], transactions := [c4Tx] }

/-- C5 scenario 3: the account, at balance 1000 when the cascade runs. -/
def c5Acc : Account :=
  { id := "a1", user_id := "u1", name := "Cash", type := .regular, balance := 1000 }

/-- C5 scenario 3: the category about to be deleted. -/
def c5Cat : Category := { id := "c1", user_id := "u1", name := "Food", type := .expense }

/-- C5 scenario 3: the three expense transactions (100, 200, 300) referencing
the category and the account. -/
def c5Txs : List Tx :=
  [{ id := "t1", user_id := "u1", type := .expense, amount := 100,
     category_id := some "c1", account_id := some "a1" },
   { id := "t2", user_id := "u1", type := .expense, amount := 200,
     category_id := some "c1", account_id := some "a1" },
   { id := "t3", user_id := "u1", type := .expense, amount := 300,
     category_id := some "c1", account_id := some "a1" }]

/-- C5 scenario 3: the store before the cascade delete. -/
def c5Store : Store := { accounts := [c5Acc], categories := [c5Cat], transactions := c5Txs }

/-- C6 scenario: account at 1000 whose sole transaction `t1` (expense 200)
is deleted twice through `deleteTransaction`. -/
def c6Acc : Account :=
  { id := "a1", user_id := "u1", name := "Cash", type := .regular, balance := 1000 }

/-- C6 scenario: the transaction deleted twice. -/
def c6Tx : Tx :=
  { id := "t1", user_id := "u1", type := .expense, amount := 200,
    category_id := some "c1", account_id := some "a1" }

/-- C6 scenario: the store before the first delete. -/
def c6Store : Store := { accounts := [c6Acc], categories := [], transactions := [c6Tx] }

/-- C6 scenario: state after the first `deleteTransaction` call. -/
def c6After1 : Store :=
  runOr c6Store (deleteTransaction "t1" (some "a1") 200 .expense "ts1" c6Store)

/-- C6 scenario: state after the second, identical `deleteTransaction` call. -/
def c6After2 : Store :=
  runOr c6After1 (deleteTransaction "t1" (some "a1") 200 .expense "ts2" c6After1)

/-- C7 witness scenario: owner `u1` with one account at 300 and one expense of
200 on it (initial balance 500, so the balance invariant holds), plus a row of
another owner that import must not touch. -/
def c7Store : Store :=
  { accounts := [{ id := "a1", user_id := "u1", name := "Cash", type := .regular,
                   balance := 300 },
                 { id := "a9", user_id := "u9", name := "Other", type := .savings,
                   balance := 777 }]
    categories := [{ id := "c1", user_id := "u1", name := "Food", type := .expense }]
    transactions := [{ id := "t1", user_id := "u1", type := .expense, amount := 200,
                       category_id := some "c1", account_id := some "a1" }] }

/-- C7 witness scenario: initial balances — `a1` opened at 500, `a9` at 777. -/
def c7Init : String → Int := fun aid => if aid = "a1" then 500 else 777

/-- C8 witness: a parsed import file whose `categories` key is absent. -/
def c8MissingCats : RawSnapshot :=
  { transactions := some (.arr [{ id := "t1", user_id := "u1", type := .income,
                                  amount := 5 }])
    categories := none
    accounts := some (.arr [{ id := "a1", user_id := "u1", name := "Cash",
                              type := .regular, balance := 5 }]) }

/-- C9 counterexample scenario: a store with one row of each kind for `u1`
and one foreign account that export must filter out. -/
def c9Store : Store :=
  { accounts := [{ id := "a1", user_id := "u1", name := "Cash", type := .regular,
                   balance := 500 },
                 { id := "a9", user_id := "u9", name := "Other", type := .debt,
                   balance := 1 }]
    categories := [{ id := "c1", user_id := "u1", name := "Food", type := .expense }]
    transactions := [{ id := "t1", user_id := "u1", type := .expense, amount := 50,
                       category_id := some "c1", account_id := some "a1" }] }

/-- C10: a parsed import file whose three collections are present as empty
arrays (accepted by the shape check). -/
def emptyCollectionsRaw : RawSnapshot :=
  { transactions := some (.arr []), categories := some (.arr []),
    accounts := some (.arr []) }

/-- C10: a parsed import file whose `categories` key is present but bound to
`null` (falsy, rejected by the shape check). -/
def nullCategoriesRaw : RawSnapshot :=
  { transactions := some (.arr []), categories := some .null,
    accounts := some (.arr []) }

/-! ### Helper lemmas -/

/-- Re-stamping an already-owned account row with its own owner id is the
identity, so re-stamping a filtered-by-owner list changes nothing. -/
theorem restamp_map_accounts (uid : String) (l : List Account) :
    (l.filter (fun a => a.user_id == uid)).map (Account.restamp uid) =
      l.filter (fun a => a.user_id == uid) := by
  induction l with
  | nil => rfl
  | cons a l ih =>
    by_cases h : a.user_id == uid
    · have heq : Account.restamp uid a = a := by
        cases a; simp_all [Account.restamp]
      simp [List.filter_cons, h, ih, heq]
    · simp [List.filter_cons, h, ih]

/-- Re-stamping a filtered-by-owner category list changes nothing. -/
theorem restamp_map_categories (uid : String) (l : List Category) :
    (l.filter (fun c => c.user_id == uid)).map (Category.restamp uid) =
      l.filter (fun c => c.user_id == uid) := by
  induction l with
  | nil => rfl
  | cons c l ih =>
    by_cases h : c.user_id == uid
    · have heq : Category.restamp uid c = c := by
        cases c; simp_all [Category.restamp]
      simp [List.filter_cons, h, ih, heq]
    · simp [List.filter_cons, h, ih]

/-- Re-stamping a filtered-by-owner transaction list changes nothing. -/
theorem restamp_map_txs (uid : String) (l : List Tx) :
    (l.filter (fun t => t.user_id == uid)).map (Tx.restamp uid) =
      l.filter (fun t => t.user_id == uid) := by
  induction l with
  | nil => rfl
  | cons t l ih =>
    by_cases h : t.user_id == uid
    · have heq : Tx.restamp uid t = t := by
        cases t; simp_all [Tx.restamp]
      simp [List.filter_cons, h, ih, heq]
    · simp [List.filter_cons, h, ih]

/-- Filtering by `p` after keeping only the rows failing `p` yields nothing. -/
theorem filter_not_filter (p : α → Bool) (l : List α) :
    (l.filter (fun x => !(p x))).filter p = [] := by
  induction l with
  | nil => rfl
  | cons a l ih => by_cases h : p a <;> simp [List.filter_cons, h, ih]

/-- Filtering twice by the same predicate filters once. -/
theorem filter_idem (p : α → Bool) (l : List α) :
    (l.filter p).filter p = l.filter p := by
  induction l with
  | nil => rfl
  | cons a l ih => by_cases h : p a <;> simp [List.filter_cons, h, ih]

/-- Splitting a list into the rows failing `p` followed by the rows passing
`p` is a permutation of the list. -/
theorem wipe_append_perm (p : α → Bool) (l : List α) :
    (l.filter (fun x => !(p x)) ++ l.filter p).Perm l :=
  List.Perm.trans List.perm_append_comm (List.filter_append_perm p l)

/-- The signed effect sum over an account is invariant under permutation of
the transaction table. -/
theorem txEffectSum_perm (aid : String) {l1 l2 : List Tx} (h : l1.Perm l2) :
    txEffectSum aid l1 = txEffectSum aid l2 := by
  unfold txEffectSum
  exact List.Perm.sum_eq ((h.filter _).map _)

/-! ### Claim theorems -/

/-- C1: the claimed invariant — every account balance equals its initial
balance plus the signed effect sum of the transactions referencing it, after
every completed sequence of core ledger operations — is violated by the code:
after `createTransaction` of an expense of 200 on account `a1` at 1000 the
invariant still holds (balance 800), but `Transactions.handleDelete` then
removes the transaction row without reversing its effect, leaving the balance
at 800 where the invariant demands 1000. -/
theorem C1_invariant_violated_by_handleDelete :
    (createTransaction c1Tx true "ts1" c1Store).isOk = true ∧
    balanceInvariant c1Init c1Store ∧
    balanceInvariant c1Init c1Mid ∧
    ¬ balanceInvariant c1Init c1Final := by decide

/-- C2: `createTransaction` (the Coordinator's Create), in one all-or-nothing
unit, appends the transaction row and rewrites the referenced account's
balance to its old balance plus `effect(kind, amount)`. -/
theorem C2_createTransaction_applies_effect (tx : Tx) (aid : String) (acc : Account)
    (now : String) (s : Store)
    (htx : tx.account_id = some aid)
    (hfind : s.accounts.find? (fun a => a.id == aid) = some acc) :
    createTransaction tx true now s =
      .ok { s with
        transactions := s.transactions ++ [tx]
        accounts := s.accounts.map (fun a =>
          if a.id == aid then
            { a with balance := acc.balance + effect tx.type tx.amount,
                     updated_at := now }
          else a) } := by
  unfold createTransaction getAccountBalance updateAccountBalance
  simp only [htx, hfind]
  cases tx.type <;> simp [effect]

/-- C2 witness, spec scenario 1: creating an expense of 200 on the "Cash"
account at balance 1000 leaves the account at 800. -/
theorem C2_createTransaction_scenario1 :
    createTransaction c2Tx true "ts1" c2Store =
      .ok { accounts := [{ c2Acc with balance := 800, updated_at := "ts1" }]
            categories := []
            transactions := [c2Tx] } := by
  have h := C2_createTransaction_applies_effect c2Tx "a1" c2Acc "ts1" c2Store rfl rfl
  rw [h]
  rfl

/-- C3: the claim — Update reverses the old effect and applies the new one,
so updating the expense's amount from 200 to 50 moves the account from 800 to
950 — is violated: the update branch of `TransactionForm.handleSubmit` only
overwrites the transaction row (its payload does not even carry `account_id`)
and never reads or writes any account balance, so the account stays at 800. -/
theorem C3_update_leaves_balance_unchanged :
    (handleSubmitUpdate "t1" c3Form c3Store).transactions.map Tx.amount = [50] ∧
    (handleSubmitUpdate "t1" c3Form c3Store).accounts = c3Store.accounts ∧
    (handleSubmitUpdate "t1" c3Form c3Store).accounts.map Account.balance = [800] ∧
    ¬ ((handleSubmitUpdate "t1" c3Form c3Store).accounts.map Account.balance
        = [950]) := by decide

/-- C4: `deleteTransaction` (the Coordinator's Delete), in one all-or-nothing
unit, removes every row with the transaction's id and applies the inverse
effect `-effect(kind, amount)` to the referenced account's balance. -/
theorem C4_deleteTransaction_applies_inverse (txId aid : String) (amount : Int)
    (ty : TxType) (acc : Account) (now : String) (s : Store)
    (hfind : s.accounts.find? (fun a => a.id == aid) = some acc) :
    deleteTransaction txId (some aid) amount ty now s =
      .ok { s with
        transactions := s.transactions.filter (fun t => !(t.id == txId))
        accounts := s.accounts.map (fun a =>
          if a.id == aid then
            { a with balance := acc.balance - effect ty amount, updated_at := now }
          else a) } := by
  unfold deleteTransaction getAccountBalance updateAccountBalance
  simp only [hfind]
  cases ty <;> simp [effect, Int.sub_eq_add_neg]

/-- C4 witness: deleting the expense of 200 from the account at 1000 removes
the row and increases the balance by 200 (the inverse of an expense). -/
theorem C4_deleteTransaction_witness :
    deleteTransaction "t1" (some "a1") 200 .expense "ts1" c4Store =
      .ok { accounts := [{ c4Acc with balance := 1200, updated_at := "ts1" }]
            categories := []
            transactions := [] } := by
  have h := C4_deleteTransaction_applies_inverse "t1" "a1" 200 .expense c4Acc "ts1"
    c4Store rfl
  rw [h]
  rfl

/-- C5 counterexample: the claim says the cascade applies the aggregate
inverse balance effect and the account (at 1000 when the cascade runs) ends
at 400; in the code `CategoryForm.handleDelete` performs no balance
adjustment at all, so the account ends at 1000, not 400. -/
theorem C5_counterexample :
    (categoryHandleDelete "c1" "u1" c5Store).accounts.map Account.balance = [1000] ∧
    ¬ ((categoryHandleDelete "c1" "u1" c5Store).accounts.map Account.balance
        = [400]) := by decide

/-- C5 amended: `CategoryForm.handleDelete` deletes all of the owner's
transactions referencing the category and then deletes the category row,
with no balance adjustment on any account: in scenario 3 the category and
its three transactions are gone and the account row is untouched at 1000;
in general the accounts table is never modified by the cascade. -/
theorem C5_cascade_without_balance_adjustment :
    categoryHandleDelete "c1" "u1" c5Store =
      { accounts := [c5Acc], categories := [], transactions := [] } ∧
    c5Acc.balance = 1000 ∧
    ∀ (cid uid : String) (s : Store),
      (categoryHandleDelete cid uid s).accounts = s.accounts := by
  refine ⟨by decide, rfl, fun cid uid s => rfl⟩

/-- C6: the claim — the second delete of the same id yields `NotFoundError`
and no second balance change — is violated: `deleteTransaction` never checks
that a row was deleted, so the second call succeeds silently (deleting zero
rows) and applies the inverse effect a second time, moving the account from
1200 to 1400. -/
theorem C6_second_delete_silently_reapplies :
    (deleteTransaction "t1" (some "a1") 200 .expense "ts1" c6Store).isOk = true ∧
    c6After1.accounts.map Account.balance = [1200] ∧
    c6After1.transactions = [] ∧
    (deleteTransaction "t1" (some "a1") 200 .expense "ts2" c6After1).isOk = true ∧
    c6After2.accounts.map Account.balance = [1400] := by decide

/-- C7: round-trip — importing the export of an owner back onto the same
owner succeeds and reproduces an equal (here: identical) set of the owner's
accounts, categories and transactions, and preserves the account-balance
invariant.  (The code re-inserts the exported rows verbatim, ids included,
re-stamped with the same owner id, so equality holds without ignoring ids.) -/
theorem C7_import_export_roundtrip (uid ts : String) (s : Store)
    (init : String → Int) (hinv : balanceInvariant init s) :
    ∃ s2 : Store,
      importData uid (exportData uid ts s).toRaw s = .ok s2 ∧
      s2.accounts.filter (fun a => a.user_id == uid) =
        s.accounts.filter (fun a => a.user_id == uid) ∧
      s2.categories.filter (fun c => c.user_id == uid) =
        s.categories.filter (fun c => c.user_id == uid) ∧
      s2.transactions.filter (fun t => t.user_id == uid) =
        s.transactions.filter (fun t => t.user_id == uid) ∧
      balanceInvariant init s2 := by
  refine ⟨_, rfl, ?_, ?_, ?_, ?_⟩
  · show (s.accounts.filter (fun a => !(a.user_id == uid)) ++
        ((s.accounts.filter (fun a => a.user_id == uid)).map
          (Account.restamp uid))).filter (fun a => a.user_id == uid) =
      s.accounts.filter (fun a => a.user_id == uid)
    rw [restamp_map_accounts, List.filter_append, filter_not_filter, filter_idem]
    simp
  · show (s.categories.filter (fun c => !(c.user_id == uid)) ++
        ((s.categories.filter (fun c => c.user_id == uid)).map
          (Category.restamp uid))).filter (fun c => c.user_id == uid) =
      s.categories.filter (fun c => c.user_id == uid)
    rw [restamp_map_categories, List.filter_append, filter_not_filter, filter_idem]
    simp
  · show (s.transactions.filter (fun t => !(t.user_id == uid)) ++
        ((s.transactions.filter (fun t => t.user_id == uid)).map
          (Tx.restamp uid))).filter (fun t => t.user_id == uid) =
      s.transactions.filter (fun t => t.user_id == uid)
    rw [restamp_map_txs, List.filter_append, filter_not_filter, filter_idem]
    simp
  · intro a ha
    have hpermA :
        (s.accounts.filter (fun x => !(x.user_id == uid)) ++
          ((s.accounts.filter (fun x => x.user_id == uid)).map
            (Account.restamp uid))).Perm s.accounts := by
      rw [restamp_map_accounts]
      exact wipe_append_perm _ _
    have hpermT :
        (s.transactions.filter (fun x => !(x.user_id == uid)) ++
          ((s.transactions.filter (fun x => x.user_id == uid)).map
            (Tx.restamp uid))).Perm s.transactions := by
      rw [restamp_map_txs]
      exact wipe_append_perm _ _
    have ha2 : a ∈ s.accounts := hpermA.mem_iff.mp ha
    have hbal := hinv a ha2
    show a.balance = init a.id + txEffectSum a.id
      (s.transactions.filter (fun x => !(x.user_id == uid)) ++
        ((s.transactions.filter (fun x => x.user_id == uid)).map (Tx.restamp uid)))
    rw [txEffectSum_perm a.id hpermT]
    exact hbal

/-- C7 witness: the round-trip on a concrete owner with one account at 300,
one category, one expense of 200 (initial balance 500, invariant holds) and a
foreign row. -/
theorem C7_import_export_roundtrip_witness :
    ∃ s2 : Store,
      importData "u1" (exportData "u1" "ts" c7Store).toRaw c7Store = .ok s2 ∧
      s2.accounts.filter (fun a => a.user_id == "u1") =
        c7Store.accounts.filter (fun a => a.user_id == "u1") ∧
      s2.categories.filter (fun c => c.user_id == "u1") =
        c7Store.categories.filter (fun c => c.user_id == "u1") ∧
      s2.transactions.filter (fun t => t.user_id == "u1") =
        c7Store.transactions.filter (fun t => t.user_id == "u1") ∧
      balanceInvariant c7Init s2 :=
  C7_import_export_roundtrip "u1" "ts" c7Store c7Init (by decide)

/-- C8: a parsed import file lacking any one of the three collection keys
(modelled as the field being absent) fails the shape check, which the code
runs before the `BEGIN` block and before any delete or insert, so
`importData` returns the malformed-snapshot error and — the function being
all-or-nothing — the owner's existing data is unchanged. -/
theorem C8_missing_key_fails_before_destruction (uid : String)
    (raw : RawSnapshot) (s : Store)
    (h : raw.transactions = none ∨ raw.categories = none ∨ raw.accounts = none) :
    importData uid raw s = .error .malformedSnapshot := by
  have hv : validSnapshot raw = false := by
    rcases h with h | h | h <;> simp [validSnapshot, h, JVal.truthy]
  simp [importData, hv]

/-- C8 witness: a snapshot missing exactly the `categories` key is rejected
as malformed. -/
theorem C8_missing_categories_witness :
    importData "u1" c8MissingCats c9Store = .error .malformedSnapshot :=
  C8_missing_key_fails_before_destruction "u1" c8MissingCats c9Store
    (Or.inr (Or.inl rfl))

/-- C9 counterexample: the export document carries no format version tag of
any kind — its keys are exactly `transactions`, `categories`, `accounts` and
`exportDate` — so the claim that the snapshot contains "a format version tag"
is false; shown on a concrete store, whose export is also evaluated. -/
theorem C9_counterexample :
    exportData "u1" "2024-01-01T00:00:00Z" c9Store =
      { transactions := c9Store.transactions
        categories := c9Store.categories
        accounts := [{ id := "a1", user_id := "u1", name := "Cash",
                       type := .regular, balance := 500 }]
        exportDate := "2024-01-01T00:00:00Z" } ∧
    Snapshot.keys = ["transactions", "categories", "accounts", "exportDate"] ∧
    "version" ∉ Snapshot.keys ∧
    "formatVersion" ∉ Snapshot.keys ∧
    "format_version" ∉ Snapshot.keys := by
  refine ⟨by decide, by decide, by decide, by decide, by decide⟩

/-- C9 amended: `Settings.exportData` reads all of the owner's transactions,
categories and accounts and produces a document containing exactly the three
named collections plus the export timestamp `exportDate`; it carries no
format version tag. -/
theorem C9_export_three_collections_and_timestamp (uid now : String) (s : Store) :
    (exportData uid now s).transactions =
      s.transactions.filter (fun t => t.user_id == uid) ∧
    (exportData uid now s).categories =
      s.categories.filter (fun c => c.user_id == uid) ∧
    (exportData uid now s).accounts =
      s.accounts.filter (fun a => a.user_id == uid) ∧
    (exportData uid now s).exportDate = now ∧
    Snapshot.keys = ["transactions", "categories", "accounts", "exportDate"] :=
  ⟨rfl, rfl, rfl, rfl, rfl⟩

/-- C10: the shape check rejects (with the malformed-snapshot error, before
any delete or insert is issued — in the embedding an `.error` result carries
no store mutation) exactly when one of the three collection fields is falsy:
a snapshot whose collections are present as empty arrays is accepted and
the import proceeds (here wiping the owner's data and inserting nothing), while
a snapshot whose `categories` key is bound to `null` is rejected. -/
theorem C10_shape_check_truthiness (uid : String) (raw : RawSnapshot) (s : Store) :
    (importData uid raw s = .error .malformedSnapshot ↔
      ¬(JVal.truthy raw.transactions = true ∧ JVal.truthy raw.categories = true ∧
        JVal.truthy raw.accounts = true)) ∧
    importData uid emptyCollectionsRaw s =
      .ok { accounts := s.accounts.filter (fun a => !(a.user_id == uid))
            categories := s.categories.filter (fun c => !(c.user_id == uid))
            transactions := s.transactions.filter (fun t => !(t.user_id == uid)) } ∧
    importData uid nullCategoriesRaw s = .error .malformedSnapshot := by
  refine ⟨?_, ?_, ?_⟩
  · constructor
    · intro h
      intro ⟨h1, h2, h3⟩
      have hv : validSnapshot raw = true := by
        simp [validSnapshot, h1, h2, h3]
      unfold importData at h
      rw [hv] at h
      simp only [Bool.not_true, Bool.false_eq_true, if_false] at h
      split at h
      · exact Except.noConfusion h
      · exact LedgerErr.noConfusion (Except.error.inj h)
    · intro h
      have hv : validSnapshot raw = false := by
        cases hvv : validSnapshot raw
        · rfl
        · exfalso
          apply h
          have hall := hvv
          simp [validSnapshot] at hall
          exact ⟨hall.1.1, hall.1.2, hall.2⟩
      simp [importData, hv]
  · simp [importData, validSnapshot, emptyCollectionsRaw, JVal.truthy, JVal.asArr]
  · simp [importData, validSnapshot, nullCategoriesRaw, JVal.truthy]

end MoneyFlow

